import Mathlib

/-!
Verification development for the CLS backend (Node/Express + mysql2).

The repository's store-touching code is shallowly embedded here:

* the relational store is a record of lists of rows (`DB`);
* each Express handler becomes a pure function from its request data and the
  store state to an `HResult` (HTTP status, resulting committed store state,
  and the trace of connection events it produced);
* statement-level failure injection is a function `faults : Nat -> Bool`
  telling whether the n-th SQL statement issued on the connection raises;
* transactions are modelled by threading a working copy of the store and
  publishing it only at `commit`; every rollback path returns the store
  exactly as it was at `getConnection` time;
* the mysql2 driver facts that the code relies on are modelled explicitly:
  `connection.execute` resolves to a two-element JS array whose first element
  is the row list (for SELECT) or a non-iterable ResultSetHeader object (for
  DML), and `connection.execute` rejects an undefined bind parameter with a
  TypeError before reaching the server.

MySQL's changed-rows versus matched-rows distinction for UPDATE is not
modelled (affectedRows is the number of rows matching the WHERE clause); no
property proved below depends on it.
-/

namespace CLS

/-! ### A small model of JavaScript values, for the mysql2 driver results -/

/-- JavaScript values, as far as the database layer needs them.  Plain objects
(including the driver's ResultSetHeader) are `obj` and are not iterable. -/
inductive JsVal where
  | undef : JsVal
  | nullv : JsVal
  | num : Int → JsVal
  | str : String → JsVal
  | arr : List JsVal → JsVal
  | obj : List (String × JsVal) → JsVal
deriving Repr, Inhabited

/-- Errors a statement in the JS code can raise. -/
inductive JsError where
  /-- TypeError, e.g. array-destructuring a non-iterable value. -/
  | typeError : JsError
  /-- An error surfaced by the database driver (network, server, bad SQL). -/
  | dbError : JsError
deriving Repr, DecidableEq

/-- The header mysql2 resolves for a DML statement (INSERT/UPDATE/DELETE). -/
structure ResultSetHeader where
  affectedRows : Nat
  insertId : Nat
deriving Repr, DecidableEq

/-- The ResultSetHeader as the JS object the driver hands back.  It is a plain
object: array destructuring it raises a TypeError. -/
def ResultSetHeader.toJs (h : ResultSetHeader) : JsVal :=
  .obj [("affectedRows", .num h.affectedRows), ("insertId", .num h.insertId)]

/-- What a single SQL statement comes back with from the store. -/
inductive QueryOutcome where
  /-- A SELECT resolving with a list of row objects. -/
  | rows : List JsVal → QueryOutcome
  /-- A DML statement resolving with a ResultSetHeader. -/
  | header : ResultSetHeader → QueryOutcome
  /-- The statement raised (induced failure). -/
  | err : QueryOutcome
deriving Repr

/-- Model of `connection.execute(sql, params)` resolving: mysql2 resolves with
the two-element array `[result, fields]`. -/
def connectionExecute (o : QueryOutcome) : Except JsError JsVal :=
  match o with
  | .rows rs => .ok (.arr [.arr rs, .undef])
  | .header h => .ok (.arr [h.toJs, .undef])
  | .err => .error .dbError

/-- Model of the JS binding `const [x] = v`: take the first element of an
iterable, raise TypeError otherwise.  Arrays and strings are iterable; plain
objects, numbers, null and undefined are not. -/
def jsArrayHead : JsVal → Except JsError JsVal
  | .arr xs => .ok (xs.headD .undef)
  | .str s =>
      match s.data with
      | [] => .ok .undef
      | c :: _ => .ok (.str (String.mk [c]))
  | _ => .error .typeError

/-- Connection events observable at the pool, in program order. -/
inductive Ev where
  | acquire : Ev
  | beginTx : Ev
  | exec : Ev
  | commit : Ev
  | rollback : Ev
  | release : Ev
deriving Repr, DecidableEq

/-! ### DatabaseService (src/backend/services/databaseService.js)

`executeQuery` acquires a connection, runs one statement, and releases the
connection in a `finally` block; it returns the first element of the resolved
`[result, fields]` pair.  The query-string builders of `insert` and
`updateById` are reproduced so the SQL composition of the source is kept. -/

/-- Embedding of `DatabaseService.executeQuery`: the value (or error) returned
together with the connection events of the call. -/
def executeQuery (o : QueryOutcome) : Except JsError JsVal × List Ev :=
  match connectionExecute o with
  | .ok v => (jsArrayHead v, [Ev.acquire, Ev.exec, Ev.release])
  | .error e => (.error e, [Ev.acquire, Ev.exec, Ev.release])

/-- The INSERT query string `DatabaseService.insert` builds from a record. -/
def insertQuery (table : String) (fields : List String) : String :=
  "INSERT INTO " ++ table ++ " (" ++ String.intercalate ", " fields ++
    ") VALUES (" ++ String.intercalate ", " (fields.map (fun _ => "?")) ++ ")"

/-- The UPDATE query string `DatabaseService.updateById` builds. -/
def updateQuery (table : String) (fields : List String) : String :=
  "UPDATE " ++ table ++ " SET " ++
    String.intercalate ", " (fields.map (fun f => f ++ " = ?")) ++ " WHERE id = ?"

/-- Embedding of `DatabaseService.insert`: it calls `executeQuery` (which has
already unwrapped the driver pair) and then array-destructures that value a
second time (`const [result] = await this.executeQuery(...)`).  The statement
is an INSERT, so the store outcome of a successful statement is a header. -/
def DatabaseService.insert (table : String) (fields : List String)
    (o : QueryOutcome) : Except JsError JsVal × List Ev :=
  let q := insertQuery table fields
  let r := executeQuery o
  match r.1 with
  | .ok v =>
      match jsArrayHead v with
      | .ok result => (.ok result, r.2)
      | .error e => (.error e, r.2)
  | .error e => (.error e, r.2)

/-- Embedding of `DatabaseService.updateById`: same double destructuring as
`insert` (`const [result] = await this.executeQuery(query, [...values, id])`). -/
def DatabaseService.updateById (table : String) (fields : List String)
    (o : QueryOutcome) : Except JsError JsVal × List Ev :=
  let q := updateQuery table fields
  let r := executeQuery o
  match r.1 with
  | .ok v =>
      match jsArrayHead v with
      | .ok result => (.ok result, r.2)
      | .error e => (.error e, r.2)
  | .error e => (.error e, r.2)

/-- Embedding of `DatabaseService.executeTransaction`: acquire, begin, run the
callback, commit on success, rollback on failure, release in `finally`.  The
callback is abstract: it maps the store state either to a result and a new
store state or to a failure. -/
def executeTransaction {α : Type} (cb : σ → Except JsError (α × σ)) (db : σ) :
    Except JsError α × σ × List Ev :=
  match cb db with
  | .ok (a, work) => (.ok a, work, [Ev.acquire, Ev.beginTx, Ev.commit, Ev.release])
  | .error e => (.error e, db, [Ev.acquire, Ev.beginTx, Ev.rollback, Ev.release])

/-! ### The relational store -/

/-- A row of the `surveyors` table.  Nullable columns are `Option String`. -/
structure Surveyor where
  id : Nat
  first_name : Option String
  last_name : Option String
  company_name : Option String
  email : Option String
  phone : Option String
  address : Option String
  town : Option String
  state : Option String
  zip_code : Option String
  password : Option String
deriving Repr, DecidableEq

/-- The committed store: the five tables the handlers touch, plus the
auto-increment counter of `surveyors`. -/
structure DB where
  surveyors : List Surveyor
  counties : List (Nat × String)
  service_subcategories : List (Nat × String)
  surveyors_services : List (Nat × Nat)
  surveyors_counties : List (Nat × Nat)
  nextSurveyorId : Nat
deriving Repr, DecidableEq

/-- Result of running one handler: HTTP status, committed store state after the
call, and the connection event trace. -/
structure HResult where
  status : Nat
  db : DB
  events : List Ev
deriving Repr, DecidableEq

/-- JS truthiness of a possibly-absent string: undefined and the empty string
are falsy. -/
def jsTruthyStr : Option String → Bool
  | some s => !(s == "")
  | none => false

/-- The JS idiom `v || null` applied to a possibly-absent string: undefined and
the empty string become SQL NULL. -/
def jsOrNull : Option String → Option String
  | some s => if s == "" then none else some s
  | none => none

/-- The fault schedule injecting no failure at any statement. -/
def noFaults : Nat → Bool := fun _ => false

/-! ### Registration (src/backend/controllers/registrationController.js) -/

/-- The registration request body; a missing field is `none` (undefined). -/
structure RegPayload where
  firstName : Option String
  lastName : Option String
  companyName : Option String
  email : Option String
  password : Option String
  confirmPassword : Option String
  phone : Option String
  address : Option String
  city : Option String
  state : Option String
  zipCode : Option String
deriving Repr, DecidableEq

/-- The controller's own required-field check (phone and companyName are not
required): `!email || !password || ... || !zipCode`. -/
def regRequiredOk (p : RegPayload) : Bool :=
  jsTruthyStr p.email && jsTruthyStr p.password && jsTruthyStr p.confirmPassword &&
    jsTruthyStr p.firstName && jsTruthyStr p.lastName && jsTruthyStr p.address &&
    jsTruthyStr p.city && jsTruthyStr p.state && jsTruthyStr p.zipCode

/-- Rows returned by the default-county lookup
`SELECT id, name FROM counties WHERE name IN (?, ?, ?)` for
`['Boulder', 'Broomfield', 'Gilpin']`. -/
def defaultCountyRows (db : DB) : List (Nat × String) :=
  db.counties.filter fun c =>
    c.2 == "Boulder" || c.2 == "Broomfield" || c.2 == "Gilpin"

/-- The bind parameters the surveyor INSERT passes raw (not `|| null`): the
driver rejects the statement if any of them is undefined.  `companyName` is
passed as `companyName || null` and `password` is the freshly computed hash,
so neither can be undefined. -/
def regInsertBindOk (p : RegPayload) : Bool :=
  p.firstName.isSome && p.lastName.isSome && p.address.isSome && p.city.isSome &&
    p.state.isSome && p.zipCode.isSome && p.phone.isSome && p.email.isSome

/-- Embedding of `registerUser`.  Statements in connection order: 0 the email
SELECT, 1 the surveyor INSERT, 2 the county SELECT, 3 the county batch INSERT
(issued only when at least one default county resolved).  `hash` abstracts
bcrypt hashing of the submitted password. -/
def registerUser (faults : Nat → Bool) (hash : String → String) (p : RegPayload)
    (db : DB) : HResult :=
  if !(regRequiredOk p) then
    { status := 400, db := db, events := [] }
  else if !(p.password == p.confirmPassword) then
    { status := 400, db := db, events := [] }
  else if faults 0 then
    { status := 500, db := db,
      events := [Ev.acquire, Ev.beginTx, Ev.exec, Ev.rollback, Ev.release] }
  else if 0 < (db.surveyors.filter fun s => s.email == p.email).length then
    { status := 409, db := db,
      events := [Ev.acquire, Ev.beginTx, Ev.exec, Ev.rollback, Ev.release] }
  else if faults 1 || !(regInsertBindOk p) then
    { status := 500, db := db,
      events := [Ev.acquire, Ev.beginTx, Ev.exec, Ev.exec, Ev.rollback, Ev.release] }
  else
    let surveyorId := db.nextSurveyorId
    let newRow : Surveyor :=
      { id := surveyorId, first_name := p.firstName, last_name := p.lastName,
        company_name := jsOrNull p.companyName, email := p.email, phone := p.phone,
        address := p.address, town := p.city, state := p.state,
        zip_code := p.zipCode, password := some (hash (p.password.getD "")) }
    let work : DB :=
      { db with surveyors := db.surveyors ++ [newRow],
                nextSurveyorId := db.nextSurveyorId + 1 }
    if faults 2 then
      { status := 500, db := db,
        events := [Ev.acquire, Ev.beginTx, Ev.exec, Ev.exec, Ev.exec,
                   Ev.rollback, Ev.release] }
    else
      let inserts := (defaultCountyRows work).map fun c => (surveyorId, c.1)
      if 0 < inserts.length then
        if faults 3 then
          { status := 500, db := db,
            events := [Ev.acquire, Ev.beginTx, Ev.exec, Ev.exec, Ev.exec, Ev.exec,
                       Ev.rollback, Ev.release] }
        else
          { status := 201,
            db := { work with
                      surveyors_counties := work.surveyors_counties ++ inserts },
            events := [Ev.acquire, Ev.beginTx, Ev.exec, Ev.exec, Ev.exec, Ev.exec,
                       Ev.commit, Ev.release] }
      else
        { status := 201, db := work,
          events := [Ev.acquire, Ev.beginTx, Ev.exec, Ev.exec, Ev.exec,
                     Ev.commit, Ev.release] }

/-! ### User profile controller (src/unnamed/part_002) -/

/-- The profile-info update body; a missing field is `none` (undefined). -/
structure InfoBody where
  firstName : Option String
  lastName : Option String
  companyName : Option String
  email : Option String
  phone : Option String
  address : Option String
  city : Option String
  state : Option String
  zipCode : Option String
deriving Repr, DecidableEq

/-- The bind parameters `updateUserInfo` passes raw into the UPDATE:
`companyName` and `phone` go through `|| null`, the other seven are raw, and
the driver rejects the statement if any raw one is undefined. -/
def infoBindOk (b : InfoBody) : Bool :=
  b.firstName.isSome && b.lastName.isSome && b.email.isSome && b.address.isSome &&
    b.city.isSome && b.state.isSome && b.zipCode.isSome

/-- The single UPDATE of `updateUserInfo` applied to one surveyor row: all
nine profile columns are set. -/
def applyInfoUpdate (b : InfoBody) (s : Surveyor) : Surveyor :=
  { s with first_name := b.firstName, last_name := b.lastName,
           company_name := jsOrNull b.companyName, email := b.email,
           phone := jsOrNull b.phone, address := b.address, town := b.city,
           state := b.state, zip_code := b.zipCode }

/-- Embedding of `updateUserInfo`.  Statement 0 is the nine-column UPDATE;
`affectedRows = 0` rolls back with 404. -/
def updateUserInfo (faults : Nat → Bool) (userId : Nat) (b : InfoBody)
    (db : DB) : HResult :=
  if faults 0 || !(infoBindOk b) then
    { status := 500, db := db,
      events := [Ev.acquire, Ev.beginTx, Ev.exec, Ev.rollback, Ev.release] }
  else if (db.surveyors.filter fun s => s.id == userId).length == 0 then
    { status := 404, db := db,
      events := [Ev.acquire, Ev.beginTx, Ev.exec, Ev.rollback, Ev.release] }
  else
    { status := 200,
      db := { db with surveyors := db.surveyors.map fun s =>
                if s.id == userId then applyInfoUpdate b s else s },
      events := [Ev.acquire, Ev.beginTx, Ev.exec, Ev.commit, Ev.release] }

/-- Embedding of `changeUserPassword`.  Statements: 0 the password SELECT,
1 the password UPDATE.  `verify` abstracts `bcrypt.compare` and `hash`
abstracts hashing the new password. -/
def changeUserPassword (faults : Nat → Bool) (verify : String → String → Bool)
    (hash : String → String) (userId : Nat)
    (currentPassword newPassword : Option String) (db : DB) : HResult :=
  if !(jsTruthyStr currentPassword && jsTruthyStr newPassword) then
    { status := 400, db := db, events := [] }
  else if faults 0 then
    { status := 500, db := db,
      events := [Ev.acquire, Ev.beginTx, Ev.exec, Ev.rollback, Ev.release] }
  else
    match db.surveyors.filter fun s => s.id == userId with
    | [] =>
      { status := 404, db := db,
        events := [Ev.acquire, Ev.beginTx, Ev.exec, Ev.rollback, Ev.release] }
    | row :: _ =>
      if !(verify (currentPassword.getD "") (row.password.getD "")) then
        { status := 401, db := db,
          events := [Ev.acquire, Ev.beginTx, Ev.exec, Ev.rollback, Ev.release] }
      else if faults 1 then
        { status := 500, db := db,
          events := [Ev.acquire, Ev.beginTx, Ev.exec, Ev.exec,
                     Ev.rollback, Ev.release] }
      else if (db.surveyors.filter fun s => s.id == userId).length == 0 then
        { status := 500, db := db,
          events := [Ev.acquire, Ev.beginTx, Ev.exec, Ev.exec,
                     Ev.rollback, Ev.release] }
      else
        { status := 200,
          db := { db with surveyors := db.surveyors.map fun s =>
                    if s.id == userId then
                      { s with password := some (hash (newPassword.getD "")) }
                    else s },
          events := [Ev.acquire, Ev.beginTx, Ev.exec, Ev.exec,
                     Ev.commit, Ev.release] }

/-- Embedding of `updateUserServices`.  Statements: 0 the DELETE of the
existing service rows, 1 the name-to-id SELECT (only when the submitted list
is nonempty), 2 the batch INSERT (only when at least one name resolved).
`mainServices` is destructured from the body but never used by the source. -/
def updateUserServices (faults : Nat → Bool) (userId : Nat)
    (mainServices subservices : Option (List String)) (db : DB) : HResult :=
  if faults 0 then
    { status := 500, db := db,
      events := [Ev.acquire, Ev.beginTx, Ev.exec, Ev.rollback, Ev.release] }
  else
    let work : DB :=
      { db with surveyors_services :=
          db.surveyors_services.filter fun r => !(r.1 == userId) }
    let hasList : Bool :=
      match subservices with
      | some l => decide (0 < l.length)
      | none => false
    if hasList then
      if faults 1 then
        { status := 500, db := db,
          events := [Ev.acquire, Ev.beginTx, Ev.exec, Ev.exec,
                     Ev.rollback, Ev.release] }
      else
        let subcategoryIds :=
          (work.service_subcategories.filter fun c =>
            (subservices.getD []).contains c.2).map fun c => c.1
        if 0 < subcategoryIds.length then
          if faults 2 then
            { status := 500, db := db,
              events := [Ev.acquire, Ev.beginTx, Ev.exec, Ev.exec, Ev.exec,
                         Ev.rollback, Ev.release] }
          else
            { status := 200,
              db := { work with surveyors_services :=
                        work.surveyors_services ++
                          subcategoryIds.map fun i => (userId, i) },
              events := [Ev.acquire, Ev.beginTx, Ev.exec, Ev.exec, Ev.exec,
                         Ev.commit, Ev.release] }
        else
          { status := 200, db := work,
            events := [Ev.acquire, Ev.beginTx, Ev.exec, Ev.exec,
                       Ev.commit, Ev.release] }
    else
      { status := 200, db := work,
        events := [Ev.acquire, Ev.beginTx, Ev.exec, Ev.commit, Ev.release] }

/-- Embedding of `updateUserServiceAreas`: identical shape to
`updateUserServices` over the counties reference table. -/
def updateUserServiceAreas (faults : Nat → Bool) (userId : Nat)
    (counties : Option (List String)) (db : DB) : HResult :=
  if faults 0 then
    { status := 500, db := db,
      events := [Ev.acquire, Ev.beginTx, Ev.exec, Ev.rollback, Ev.release] }
  else
    let work : DB :=
      { db with surveyors_counties :=
          db.surveyors_counties.filter fun r => !(r.1 == userId) }
    let hasList : Bool :=
      match counties with
      | some l => decide (0 < l.length)
      | none => false
    if hasList then
      if faults 1 then
        { status := 500, db := db,
          events := [Ev.acquire, Ev.beginTx, Ev.exec, Ev.exec,
                     Ev.rollback, Ev.release] }
      else
        let countyIds :=
          (work.counties.filter fun c =>
            (counties.getD []).contains c.2).map fun c => c.1
        if 0 < countyIds.length then
          if faults 2 then
            { status := 500, db := db,
              events := [Ev.acquire, Ev.beginTx, Ev.exec, Ev.exec, Ev.exec,
                         Ev.rollback, Ev.release] }
          else
            { status := 200,
              db := { work with surveyors_counties :=
                        work.surveyors_counties ++
                          countyIds.map fun i => (userId, i) },
              events := [Ev.acquire, Ev.beginTx, Ev.exec, Ev.exec, Ev.exec,
                         Ev.commit, Ev.release] }
        else
          { status := 200, db := work,
            events := [Ev.acquire, Ev.beginTx, Ev.exec, Ev.exec,
                       Ev.commit, Ev.release] }
    else
      { status := 200, db := work,
        events := [Ev.acquire, Ev.beginTx, Ev.exec, Ev.commit, Ev.release] }

/-- Embedding of `deleteUser`.  Statements: 0 the DELETE of service rows,
1 the DELETE of county rows, 2 the DELETE of the surveyor row;
`affectedRows = 0` on the last one rolls back everything with 404. -/
def deleteUser (faults : Nat → Bool) (userId : Nat) (db : DB) : HResult :=
  if faults 0 then
    { status := 500, db := db,
      events := [Ev.acquire, Ev.beginTx, Ev.exec, Ev.rollback, Ev.release] }
  else
    let work1 : DB :=
      { db with surveyors_services :=
          db.surveyors_services.filter fun r => !(r.1 == userId) }
    if faults 1 then
      { status := 500, db := db,
        events := [Ev.acquire, Ev.beginTx, Ev.exec, Ev.exec,
                   Ev.rollback, Ev.release] }
    else
      let work2 : DB :=
        { work1 with surveyors_counties :=
            work1.surveyors_counties.filter fun r => !(r.1 == userId) }
      if faults 2 then
        { status := 500, db := db,
          events := [Ev.acquire, Ev.beginTx, Ev.exec, Ev.exec, Ev.exec,
                     Ev.rollback, Ev.release] }
      else if (work2.surveyors.filter fun s => s.id == userId).length == 0 then
        { status := 404, db := db,
          events := [Ev.acquire, Ev.beginTx, Ev.exec, Ev.exec, Ev.exec,
                     Ev.rollback, Ev.release] }
      else
        { status := 200,
          db := { work2 with surveyors :=
                    work2.surveyors.filter fun s => !(s.id == userId) },
          events := [Ev.acquire, Ev.beginTx, Ev.exec, Ev.exec, Ev.exec,
                     Ev.commit, Ev.release] }

/-! ### Pagination (DatabaseService.paginate) -/

/-- JS `Math.ceil(a / b)` on the nonnegative integers used by `paginate`. -/
def jsMathCeilDiv (a b : Nat) : Nat := ⌈(a : ℚ) / (b : ℚ)⌉₊

/-- The pagination metadata object `paginate` returns. -/
structure Pagination where
  page : Nat
  limit : Nat
  total : Nat
  totalPages : Nat
  hasNext : Bool
  hasPrev : Bool
deriving Repr, DecidableEq

/-- Data plus metadata, as returned by `paginate`. -/
structure PageResult (α : Type) where
  data : List α
  pagination : Pagination
deriving Repr

/-- Embedding of `DatabaseService.paginate` over the rows matching the WHERE
clause, in the ORDER BY order.  The COUNT(*) becomes the length of that list
and the `LIMIT ? OFFSET ?` SELECT becomes drop-then-take with
`offset = (page - 1) * limit`. -/
def paginate {α : Type} (rows : List α) (page : Nat) (limit : Nat) :
    PageResult α :=
  let offset := (page - 1) * limit
  let total := rows.length
  { data := (rows.drop offset).take limit,
    pagination :=
      { page := page, limit := limit, total := total,
        totalPages := jsMathCeilDiv total limit,
        hasNext := decide (page < jsMathCeilDiv total limit),
        hasPrev := decide (1 < page) } }

/-! ### Ownership gate (src/backend/middleware/auth, checkResourceOwnership) -/

/-- Embedding of `checkResourceOwnership`: the request proceeds to the next
middleware exactly when the authenticated id (`req.user?.id`, absent is
undefined) strictly equals the parsed path-parameter id; any mismatch,
including an absent authenticated id, is refused. -/
def checkResourceOwnership (tokenUserId : Option Nat) (paramId : Nat) : Bool :=
  match tokenUserId with
  | some uid => uid == paramId
  | none => false

/-- Running an owner-only route: the ownership gate sits in front of the
handler; when it refuses, the response is 403, the store is untouched and the
handler never runs (the Bool records whether the handler ran). -/
def runOwnerOnly (tokenUserId : Option Nat) (paramId : Nat)
    (handler : DB → Nat × DB) (db : DB) : Nat × DB × Bool :=
  if checkResourceOwnership tokenUserId paramId then
    let r := handler db
    (r.1, r.2, true)
  else
    (403, db, false)

/-! ### Read-only store operations (authController, userProfileController,
auth middleware) -/

/-- Embedding of `loginUser` (authController).  No transaction: one SELECT by
email on a plain connection, released in `finally`.  `verify` abstracts
`bcrypt.compare`; the issued token is out of scope here. -/
def loginUser (faults : Nat → Bool) (verify : String → String → Bool)
    (email password : Option String) (db : DB) : HResult :=
  if !(jsTruthyStr email && jsTruthyStr password) then
    { status := 400, db := db, events := [] }
  else if faults 0 then
    { status := 500, db := db, events := [Ev.acquire, Ev.exec, Ev.release] }
  else
    match db.surveyors.filter fun s => s.email == email with
    | [] => { status := 401, db := db, events := [Ev.acquire, Ev.exec, Ev.release] }
    | user :: _ =>
      if !(verify (password.getD "") (user.password.getD "")) then
        { status := 401, db := db,
          events := [Ev.acquire, Ev.exec, Ev.release] }
      else
        { status := 200, db := db,
          events := [Ev.acquire, Ev.exec, Ev.release] }

/-- Embedding of `getUserProfile`.  No transaction: statements 0 the surveyor
SELECT, 1 the services join SELECT, 2 the counties join SELECT, all on one
connection released in `finally`. -/
def getUserProfile (faults : Nat → Bool) (userId : Nat) (db : DB) : HResult :=
  if faults 0 then
    { status := 500, db := db, events := [Ev.acquire, Ev.exec, Ev.release] }
  else
    match db.surveyors.filter fun s => s.id == userId with
    | [] => { status := 404, db := db, events := [Ev.acquire, Ev.exec, Ev.release] }
    | _ :: _ =>
      if faults 1 then
        { status := 500, db := db,
          events := [Ev.acquire, Ev.exec, Ev.exec, Ev.release] }
      else if faults 2 then
        { status := 500, db := db,
          events := [Ev.acquire, Ev.exec, Ev.exec, Ev.exec, Ev.release] }
      else
        { status := 200, db := db,
          events := [Ev.acquire, Ev.exec, Ev.exec, Ev.exec, Ev.release] }

/-- How the bearer token of a request checks out under `jwt.verify`, which
runs before any connection is acquired. -/
inductive TokenCheck where
  /-- No Authorization header / no token. -/
  | missing : TokenCheck
  /-- Signature or format failure (JsonWebTokenError). -/
  | invalid : TokenCheck
  /-- Expired token (TokenExpiredError). -/
  | expired : TokenCheck
  /-- Verified payload. -/
  | valid : Nat → String → TokenCheck
deriving Repr

/-- Embedding of the `authenticateToken` middleware: token failures respond
before any store access; a verified token triggers one user-existence SELECT
on a connection released in an inner `finally` (a statement failure then
surfaces as 500 through the outer catch).  Status 200 stands for control
passing to the next middleware. -/
def authenticateToken (faults : Nat → Bool) (tok : TokenCheck) (db : DB) :
    HResult :=
  match tok with
  | .missing => { status := 401, db := db, events := [] }
  | .invalid => { status := 403, db := db, events := [] }
  | .expired => { status := 401, db := db, events := [] }
  | .valid uid _ =>
    if faults 0 then
      { status := 500, db := db, events := [Ev.acquire, Ev.exec, Ev.release] }
    else
      match db.surveyors.filter fun s => s.id == uid with
      | [] => { status := 401, db := db,
                events := [Ev.acquire, Ev.exec, Ev.release] }
      | _ :: _ => { status := 200, db := db,
                    events := [Ev.acquire, Ev.exec, Ev.release] }

/-- Embedding of the `optionalAuth` middleware: it always passes control on
(status 200 stands for next), touching the store only for a verified token,
on one connection released in an inner `finally`; every error is swallowed. -/
def optionalAuth (faults : Nat → Bool) (tok : TokenCheck) (db : DB) :
    HResult :=
  match tok with
  | .missing => { status := 200, db := db, events := [] }
  | .invalid => { status := 200, db := db, events := [] }
  | .expired => { status := 200, db := db, events := [] }
  | .valid _ _ =>
    if faults 0 then
      { status := 200, db := db, events := [Ev.acquire, Ev.exec, Ev.release] }
    else
      { status := 200, db := db, events := [Ev.acquire, Ev.exec, Ev.release] }

/-- The connection events of one `DatabaseService.paginate` call: it makes two
sequential `executeQuery` calls (the COUNT query, then the LIMIT/OFFSET data
query), each acquiring and releasing its own pooled connection; the second is
not issued when the first throws.  The data/metadata this call returns are
modelled by `paginate`. -/
def paginateEvents (o1 o2 : QueryOutcome) : List Ev :=
  match (executeQuery o1).1 with
  | .error _ => (executeQuery o1).2
  | .ok _ => (executeQuery o1).2 ++ (executeQuery o2).2

/-! ### Concrete example values used by the witnesses -/

/-- A concrete registration payload with every field present. -/
def pEx : RegPayload :=
  { firstName := some "Ada", lastName := some "Lovelace",
    companyName := some "ACME", email := some "ada@example.com",
    password := some "Password1", confirmPassword := some "Password1",
    phone := some "3035551234", address := some "1 Main St",
    city := some "Boulder", state := some "CO", zipCode := some "80301" }

/-- The payload pEx with a fresh email and the optional phone omitted. -/
def pExNoPhone : RegPayload :=
  { pEx with email := some "fresh@example.com", phone := none }

/-- A concrete surveyor row. -/
def rowEx : Surveyor :=
  { id := 1, first_name := some "Old", last_name := some "Name",
    company_name := some "OldCo", email := some "old@example.com",
    phone := some "5550000", address := some "2 Oak St", town := some "Denver",
    state := some "CO", zip_code := some "80202", password := some "hashed" }

/-- A concrete store with one user, two counties and one subcategory. -/
def dbEx : DB :=
  { surveyors := [rowEx], counties := [(1, "Boulder"), (2, "Denver")],
    service_subcategories := [(1, "ALTA Survey")],
    surveyors_services := [(1, 1)], surveyors_counties := [(1, 2)],
    nextSurveyorId := 2 }

/-- A concrete store with one user whose email is taken, and no counties. -/
def dbEx1 : DB :=
  { surveyors := [{ rowEx with email := some "ada@example.com" }],
    counties := [], service_subcategories := [], surveyors_services := [],
    surveyors_counties := [], nextSurveyorId := 2 }

/-- A profile-update body that omits firstName but provides the other eight
fields. -/
def bodyEx : InfoBody :=
  { firstName := none, lastName := some "New", companyName := some "NewCo",
    email := some "new@example.com", phone := some "5551111",
    address := some "3 Pine St", city := some "Golden", state := some "CO",
    zipCode := some "80401" }

/-- A profile-update body that provides the seven raw-bound fields but omits
companyName and phone. -/
def bodyEx2 : InfoBody :=
  { firstName := some "Grace", lastName := some "Hopper", companyName := none,
    email := some "grace@example.com", phone := none,
    address := some "4 Elm St", city := some "Boulder", state := some "CO",
    zipCode := some "80302" }

/-! ### Helper lemmas -/

/-- Deleting all rows of a user and then selecting that user's rows yields
nothing. -/
lemma filter_erase_user (u : Nat) (l : List (Nat × Nat)) :
    (l.filter fun r => !(r.1 == u)).filter (fun r => r.1 == u) = [] := by
  induction l with
  | nil => rfl
  | cons a t ih =>
      by_cases h : a.1 = u <;>
        simp only [List.filter_cons, h, beq_self_eq_true, Bool.not_true,
          Bool.not_false, beq_iff_eq, if_true, if_false, ih] <;>
        simp [h, ih]

/-- Freshly inserted (u, id) pairs all belong to user u. -/
lemma filter_pairs_self {α : Type} (u : Nat) (f : α → Nat) (l : List α) :
    ((l.map fun c => (u, f c)).filter fun r => r.1 == u) =
      l.map fun c => (u, f c) := by
  induction l with
  | nil => rfl
  | cons a t ih => simp [ih]

/-- Fault-free replace of a user's counties: success, and the rows of that
user afterwards are exactly the pairs formed from the county rows whose name
occurs in the submitted list. -/
lemma updateUserServiceAreas_resultSet (userId : Nat) (names : List String)
    (db : DB) :
    (updateUserServiceAreas noFaults userId (some names) db).status = 200 ∧
      ((updateUserServiceAreas noFaults userId (some names) db).db.surveyors_counties.filter
          fun a => a.1 == userId) =
        (db.counties.filter fun c => names.contains c.2).map
          fun c => (userId, c.1) := by
  unfold updateUserServiceAreas
  dsimp only [Option.getD]
  simp only [noFaults, Bool.false_eq_true, if_false]
  by_cases hn : 0 < names.length
  · rw [if_pos (by simp [hn])]
    rcases hfil : db.counties.filter fun c => names.contains c.2 with _ | ⟨a, t⟩
    · rw [hfil, if_neg (by simp)]
      refine ⟨rfl, ?_⟩
      simp [filter_erase_user]
    · rw [hfil, if_pos (by simp)]
      refine ⟨rfl, ?_⟩
      simp [List.filter_append, filter_erase_user, List.map_map,
        Function.comp_def, filter_pairs_self]
  · rw [if_neg (by simp [hn])]
    refine ⟨rfl, ?_⟩
    have hnames : names = [] := List.length_eq_zero.mp (by omega)
    subst hnames
    simp [filter_erase_user]

/-- Fault-free replace of a user's services: success, and the service rows of
that user afterwards are exactly the pairs formed from the subcategory rows
whose name occurs in the submitted list. -/
lemma updateUserServices_resultSet (userId : Nat) (names : List String)
    (mainServices : Option (List String)) (db : DB) :
    (updateUserServices noFaults userId mainServices (some names) db).status = 200 ∧
      ((updateUserServices noFaults userId mainServices (some names) db).db.surveyors_services.filter
          fun a => a.1 == userId) =
        (db.service_subcategories.filter fun c => names.contains c.2).map
          fun c => (userId, c.1) := by
  unfold updateUserServices
  dsimp only [Option.getD]
  simp only [noFaults, Bool.false_eq_true, if_false]
  by_cases hn : 0 < names.length
  · rw [if_pos (by simp [hn])]
    rcases hfil : db.service_subcategories.filter fun c => names.contains c.2
      with _ | ⟨a, t⟩
    · rw [hfil, if_neg (by simp)]
      refine ⟨rfl, ?_⟩
      simp [filter_erase_user]
    · rw [hfil, if_pos (by simp)]
      refine ⟨rfl, ?_⟩
      simp [List.filter_append, filter_erase_user, List.map_map,
        Function.comp_def, filter_pairs_self]
  · rw [if_neg (by simp [hn])]
    refine ⟨rfl, ?_⟩
    have hnames : names = [] := List.length_eq_zero.mp (by omega)
    subst hnames
    simp [filter_erase_user]

/-! ### Claim C2 -/

/-- C2: for every replace-associations call (services or counties) for user u
with input name list L, the resulting association set for u equals exactly the
(user, id) pairs for names of L that exist in the reference table; unknown
names are silently dropped (status is still 200), and an empty L leaves u with
zero associations (the right-hand side is then the empty list). -/
theorem replaceAssociations_exactResultSet (userId : Nat) (names : List String)
    (mainServices : Option (List String)) (db : DB) :
    ((updateUserServiceAreas noFaults userId (some names) db).status = 200 ∧
      ((updateUserServiceAreas noFaults userId (some names) db).db.surveyors_counties.filter
          fun a => a.1 == userId) =
        (db.counties.filter fun c => names.contains c.2).map
          fun c => (userId, c.1)) ∧
    ((updateUserServices noFaults userId mainServices (some names) db).status = 200 ∧
      ((updateUserServices noFaults userId mainServices (some names) db).db.surveyors_services.filter
          fun a => a.1 == userId) =
        (db.service_subcategories.filter fun c => names.contains c.2).map
          fun c => (userId, c.1)) :=
  ⟨updateUserServiceAreas_resultSet userId names db,
   updateUserServices_resultSet userId names mainServices db⟩


/-! ### Claim C1: transactional atomicity -/

/-- Every begun transaction is closed: one beginTx event is matched by exactly
one commit or rollback. -/
abbrev txBalanced (evs : List Ev) : Prop :=
  evs.count Ev.beginTx = evs.count Ev.commit + evs.count Ev.rollback

lemma registerUser_atomic (faults : Nat → Bool) (hash : String → String)
    (p : RegPayload) (db : DB) :
    ((registerUser faults hash p db).status = 201 ∨
        (registerUser faults hash p db).db = db) ∧
      txBalanced (registerUser faults hash p db).events := by
  unfold registerUser
  dsimp only
  repeat' split
  all_goals first
    | exact ⟨Or.inl rfl, by dsimp only; decide⟩
    | exact ⟨Or.inr rfl, by dsimp only; decide⟩


lemma updateUserInfo_atomic (faults : Nat → Bool) (userId : Nat) (b : InfoBody)
    (db : DB) :
    ((updateUserInfo faults userId b db).status = 200 ∨
        (updateUserInfo faults userId b db).db = db) ∧
      txBalanced (updateUserInfo faults userId b db).events := by
  unfold updateUserInfo
  try dsimp only
  repeat' split
  all_goals first
    | exact ⟨Or.inl rfl, by dsimp only; decide⟩
    | exact ⟨Or.inr rfl, by dsimp only; decide⟩

lemma changeUserPassword_atomic (faults : Nat → Bool)
    (verify : String → String → Bool) (hash : String → String) (userId : Nat)
    (currentPassword newPassword : Option String) (db : DB) :
    ((changeUserPassword faults verify hash userId currentPassword newPassword db).status = 200 ∨
        (changeUserPassword faults verify hash userId currentPassword newPassword db).db = db) ∧
      txBalanced (changeUserPassword faults verify hash userId currentPassword newPassword db).events := by
  unfold changeUserPassword
  try dsimp only
  repeat' split
  all_goals first
    | exact ⟨Or.inl rfl, by dsimp only; decide⟩
    | exact ⟨Or.inr rfl, by dsimp only; decide⟩

lemma updateUserServices_atomic (faults : Nat → Bool) (userId : Nat)
    (mainServices subservices : Option (List String)) (db : DB) :
    ((updateUserServices faults userId mainServices subservices db).status = 200 ∨
        (updateUserServices faults userId mainServices subservices db).db = db) ∧
      txBalanced (updateUserServices faults userId mainServices subservices db).events := by
  unfold updateUserServices
  dsimp only
  repeat' split
  all_goals first
    | exact ⟨Or.inl rfl, by dsimp only; decide⟩
    | exact ⟨Or.inr rfl, by dsimp only; decide⟩

lemma updateUserServiceAreas_atomic (faults : Nat → Bool) (userId : Nat)
    (counties : Option (List String)) (db : DB) :
    ((updateUserServiceAreas faults userId counties db).status = 200 ∨
        (updateUserServiceAreas faults userId counties db).db = db) ∧
      txBalanced (updateUserServiceAreas faults userId counties db).events := by
  unfold updateUserServiceAreas
  dsimp only
  repeat' split
  all_goals first
    | exact ⟨Or.inl rfl, by dsimp only; decide⟩
    | exact ⟨Or.inr rfl, by dsimp only; decide⟩

lemma deleteUser_atomic (faults : Nat → Bool) (userId : Nat) (db : DB) :
    ((deleteUser faults userId db).status = 200 ∨
        (deleteUser faults userId db).db = db) ∧
      txBalanced (deleteUser faults userId db).events := by
  unfold deleteUser
  dsimp only
  repeat' split
  all_goals first
    | exact ⟨Or.inl rfl, by dsimp only; decide⟩
    | exact ⟨Or.inr rfl, by dsimp only; decide⟩

lemma executeTransaction_atomic (cb : DB → Except JsError (Nat × DB)) (db : DB) :
    ((∃ a, (executeTransaction cb db).1 = Except.ok a) ∨
        (executeTransaction cb db).2.1 = db) ∧
      txBalanced (executeTransaction cb db).2.2 := by
  unfold executeTransaction
  rcases cb db with e | ⟨a, work⟩
  · exact ⟨Or.inr rfl, by dsimp only; decide⟩
  · exact ⟨Or.inl ⟨a, rfl⟩, by dsimp only; decide⟩

/-- C1: every multi-step store write (replace-services, replace-counties,
registration, profile-info update, password change, account deletion), under
any statement-level fault schedule, either ends in full success or leaves the
committed store state exactly equal to the state before the call (rollback, no
partial write); moreover every begun transaction is closed by exactly one
commit or rollback, and the reusable executeTransaction helper has the same
shape. -/
theorem multiStepWrites_atomic :
    (∀ faults hash p db,
      ((registerUser faults hash p db).status = 201 ∨
          (registerUser faults hash p db).db = db) ∧
        txBalanced (registerUser faults hash p db).events) ∧
    (∀ faults userId b db,
      ((updateUserInfo faults userId b db).status = 200 ∨
          (updateUserInfo faults userId b db).db = db) ∧
        txBalanced (updateUserInfo faults userId b db).events) ∧
    (∀ faults verify hash userId currentPassword newPassword db,
      ((changeUserPassword faults verify hash userId currentPassword newPassword db).status = 200 ∨
          (changeUserPassword faults verify hash userId currentPassword newPassword db).db = db) ∧
        txBalanced (changeUserPassword faults verify hash userId currentPassword newPassword db).events) ∧
    (∀ faults userId mainServices subservices db,
      ((updateUserServices faults userId mainServices subservices db).status = 200 ∨
          (updateUserServices faults userId mainServices subservices db).db = db) ∧
        txBalanced (updateUserServices faults userId mainServices subservices db).events) ∧
    (∀ faults userId counties db,
      ((updateUserServiceAreas faults userId counties db).status = 200 ∨
          (updateUserServiceAreas faults userId counties db).db = db) ∧
        txBalanced (updateUserServiceAreas faults userId counties db).events) ∧
    (∀ faults userId db,
      ((deleteUser faults userId db).status = 200 ∨
          (deleteUser faults userId db).db = db) ∧
        txBalanced (deleteUser faults userId db).events) ∧
    (∀ (cb : DB → Except JsError (Nat × DB)) db,
      ((∃ a, (executeTransaction cb db).1 = Except.ok a) ∨
          (executeTransaction cb db).2.1 = db) ∧
        txBalanced (executeTransaction cb db).2.2) :=
  ⟨registerUser_atomic, updateUserInfo_atomic, changeUserPassword_atomic,
   updateUserServices_atomic, updateUserServiceAreas_atomic, deleteUser_atomic,
   executeTransaction_atomic⟩


/-! ### Claim C3: connection acquire/release discipline -/

/-- Acquire/release discipline of one call: as many releases as acquires, at
most one acquisition, and any path that issued a statement acquired exactly
once. -/
abbrev connBalanced (evs : List Ev) : Prop :=
  evs.count Ev.acquire = evs.count Ev.release ∧
    evs.count Ev.acquire ≤ 1 ∧
    (0 < evs.count Ev.exec → evs.count Ev.acquire = 1)

lemma registerUser_connBalanced (faults : Nat → Bool) (hash : String → String)
    (p : RegPayload) (db : DB) :
    connBalanced (registerUser faults hash p db).events := by
  unfold registerUser
  dsimp only
  repeat' split
  all_goals dsimp only; decide

lemma updateUserInfo_connBalanced (faults : Nat → Bool) (userId : Nat)
    (b : InfoBody) (db : DB) :
    connBalanced (updateUserInfo faults userId b db).events := by
  unfold updateUserInfo
  repeat' split
  all_goals dsimp only; decide

lemma changeUserPassword_connBalanced (faults : Nat → Bool)
    (verify : String → String → Bool) (hash : String → String) (userId : Nat)
    (currentPassword newPassword : Option String) (db : DB) :
    connBalanced (changeUserPassword faults verify hash userId currentPassword newPassword db).events := by
  unfold changeUserPassword
  repeat' split
  all_goals dsimp only; decide

lemma updateUserServices_connBalanced (faults : Nat → Bool) (userId : Nat)
    (mainServices subservices : Option (List String)) (db : DB) :
    connBalanced (updateUserServices faults userId mainServices subservices db).events := by
  unfold updateUserServices
  dsimp only
  repeat' split
  all_goals dsimp only; decide

lemma updateUserServiceAreas_connBalanced (faults : Nat → Bool) (userId : Nat)
    (counties : Option (List String)) (db : DB) :
    connBalanced (updateUserServiceAreas faults userId counties db).events := by
  unfold updateUserServiceAreas
  dsimp only
  repeat' split
  all_goals dsimp only; decide

lemma deleteUser_connBalanced (faults : Nat → Bool) (userId : Nat) (db : DB) :
    connBalanced (deleteUser faults userId db).events := by
  unfold deleteUser
  dsimp only
  repeat' split
  all_goals dsimp only; decide

lemma executeQuery_connBalanced (o : QueryOutcome) :
    connBalanced (executeQuery o).2 := by
  unfold executeQuery connectionExecute
  rcases o with rs | h | _
  all_goals dsimp only; decide

lemma executeTransaction_connBalanced (cb : DB → Except JsError (Nat × DB))
    (db : DB) :
    connBalanced (executeTransaction cb db).2.2 := by
  unfold executeTransaction
  rcases cb db with e | ⟨a, work⟩
  all_goals dsimp only; decide

lemma loginUser_connBalanced (faults : Nat → Bool)
    (verify : String → String → Bool) (email password : Option String)
    (db : DB) :
    connBalanced (loginUser faults verify email password db).events := by
  unfold loginUser
  repeat' split
  all_goals dsimp only; decide

lemma getUserProfile_connBalanced (faults : Nat → Bool) (userId : Nat)
    (db : DB) :
    connBalanced (getUserProfile faults userId db).events := by
  unfold getUserProfile
  repeat' split
  all_goals dsimp only; decide

lemma authenticateToken_connBalanced (faults : Nat → Bool) (tok : TokenCheck)
    (db : DB) :
    connBalanced (authenticateToken faults tok db).events := by
  unfold authenticateToken
  repeat' split
  all_goals dsimp only; decide

lemma optionalAuth_connBalanced (faults : Nat → Bool) (tok : TokenCheck)
    (db : DB) :
    connBalanced (optionalAuth faults tok db).events := by
  unfold optionalAuth
  repeat' split
  all_goals dsimp only; decide

lemma paginateEvents_balanced (o1 o2 : QueryOutcome) :
    (paginateEvents o1 o2).count Ev.acquire =
        (paginateEvents o1 o2).count Ev.release ∧
      ((paginateEvents o1 o2).count Ev.acquire = 1 ∨
        (paginateEvents o1 o2).count Ev.acquire = 2) := by
  rcases o1 with r1 | h1 | _ <;> rcases o2 with r2 | h2 | _ <;>
    simp only [paginateEvents, executeQuery, connectionExecute, jsArrayHead,
      ResultSetHeader.toJs] <;> decide

/-- C3 counterexample: a successful paginate call is one store-touching
operation but acquires (and releases) the pooled connection twice — once per
internal executeQuery call — so it does not acquire exactly one pooled
connection. -/
theorem paginate_acquiresTwice :
    (paginateEvents (QueryOutcome.rows [JsVal.num 25])
        (QueryOutcome.rows [])).count Ev.acquire = 2 ∧
      (paginateEvents (QueryOutcome.rows [JsVal.num 25])
        (QueryOutcome.rows [])).count Ev.release = 2 ∧
      ¬ (paginateEvents (QueryOutcome.rows [JsVal.num 25])
        (QueryOutcome.rows [])).count Ev.acquire = 1 := by
  refine ⟨rfl, rfl, by decide⟩

/-- C3 amended: every store-touching operation — the six mutating handlers,
loginUser, getUserProfile, the authenticateToken and optionalAuth store
probes, executeQuery and executeTransaction — releases the pooled connection
exactly as often as it acquires one on every exit path (no leak, no double
release), acquires at most once, and acquires exactly once on every path that
issues a statement; paginate is the one exception to exactly-once: it makes
two sequential executeQuery calls, so it acquires and releases exactly twice
on success and exactly once when its first query throws, still in balance. -/
theorem storeCalls_connectionBalance :
    (∀ faults hash p db, connBalanced (registerUser faults hash p db).events) ∧
    (∀ faults userId b db,
      connBalanced (updateUserInfo faults userId b db).events) ∧
    (∀ faults verify hash userId currentPassword newPassword db,
      connBalanced (changeUserPassword faults verify hash userId currentPassword
        newPassword db).events) ∧
    (∀ faults userId mainServices subservices db,
      connBalanced (updateUserServices faults userId mainServices subservices db).events) ∧
    (∀ faults userId counties db,
      connBalanced (updateUserServiceAreas faults userId counties db).events) ∧
    (∀ faults userId db, connBalanced (deleteUser faults userId db).events) ∧
    (∀ faults verify email password db,
      connBalanced (loginUser faults verify email password db).events) ∧
    (∀ faults userId db, connBalanced (getUserProfile faults userId db).events) ∧
    (∀ faults tok db, connBalanced (authenticateToken faults tok db).events) ∧
    (∀ faults tok db, connBalanced (optionalAuth faults tok db).events) ∧
    (∀ o, connBalanced (executeQuery o).2) ∧
    (∀ (cb : DB → Except JsError (Nat × DB)) db,
      connBalanced (executeTransaction cb db).2.2) ∧
    (∀ o1 o2, (paginateEvents o1 o2).count Ev.acquire =
        (paginateEvents o1 o2).count Ev.release ∧
      ((paginateEvents o1 o2).count Ev.acquire = 1 ∨
        (paginateEvents o1 o2).count Ev.acquire = 2)) :=
  ⟨registerUser_connBalanced, updateUserInfo_connBalanced,
   changeUserPassword_connBalanced, updateUserServices_connBalanced,
   updateUserServiceAreas_connBalanced, deleteUser_connBalanced,
   loginUser_connBalanced, getUserProfile_connBalanced,
   authenticateToken_connBalanced, optionalAuth_connBalanced,
   executeQuery_connBalanced, executeTransaction_connBalanced,
   paginateEvents_balanced⟩

/-- C3 witness: a concrete fault-free registration and a concrete login both
issue statements, and the balance theorem then gives exactly one acquire and
one release for each. -/
theorem storeCalls_connectionBalance_witness :
    0 < (registerUser noFaults (fun s => s) pEx dbEx).events.count Ev.exec ∧
      (registerUser noFaults (fun s => s) pEx dbEx).events.count Ev.acquire = 1 ∧
      (registerUser noFaults (fun s => s) pEx dbEx).events.count Ev.release = 1 ∧
      0 < (loginUser noFaults (fun _ _ => true) (some "old@example.com")
        (some "pw") dbEx).events.count Ev.exec ∧
      (loginUser noFaults (fun _ _ => true) (some "old@example.com")
        (some "pw") dbEx).events.count Ev.acquire = 1 := by
  have h := storeCalls_connectionBalance
  have hex1 : 0 < (registerUser noFaults (fun s => s) pEx dbEx).events.count
      Ev.exec := by decide
  have hex2 : 0 < (loginUser noFaults (fun _ _ => true) (some "old@example.com")
      (some "pw") dbEx).events.count Ev.exec := by decide
  have h1 := h.1 noFaults (fun s => s) pEx dbEx
  have h2 := h.2.2.2.2.2.2.1 noFaults (fun _ _ => true) (some "old@example.com")
    (some "pw") dbEx
  have ha1 := h1.2.2 hex1
  refine ⟨hex1, ha1, ?_, hex2, h2.2.2 hex2⟩
  rw [← h1.1]
  exact ha1

/-! ### Claim C4: duplicate email registration -/

/-- C4: a well-formed registration request whose email already has exactly one
user row fails with 409 and leaves the store unchanged, so that email still
has exactly one row afterwards. -/
theorem registerUser_duplicateEmail (hash : String → String) (p : RegPayload)
    (db : DB) (h1 : regRequiredOk p = true)
    (h2 : p.password = p.confirmPassword)
    (h3 : (db.surveyors.filter fun s => s.email == p.email).length = 1) :
    (registerUser noFaults hash p db).status = 409 ∧
      (registerUser noFaults hash p db).db = db ∧
      ((registerUser noFaults hash p db).db.surveyors.filter
        fun s => s.email == p.email).length = 1 := by
  unfold registerUser
  rw [h1]
  rw [if_neg (by simp)]
  rw [if_neg (by simp [h2])]
  rw [if_neg (by simp [noFaults])]
  rw [if_pos (by rw [h3]; omega)]
  exact ⟨rfl, rfl, h3⟩

/-- C4 witness: the concrete payload pEx against a store already holding one
row with its email. -/
theorem registerUser_duplicateEmail_witness :
    regRequiredOk pEx = true ∧ pEx.password = pEx.confirmPassword ∧
      (dbEx1.surveyors.filter fun s => s.email == pEx.email).length = 1 ∧
      (registerUser noFaults (fun s => s) pEx dbEx1).status = 409 ∧
      (registerUser noFaults (fun s => s) pEx dbEx1).db = dbEx1 :=
  ⟨by decide, by decide, by decide,
   (registerUser_duplicateEmail (fun s => s) pEx dbEx1 (by decide) (by decide)
     (by decide)).1,
   (registerUser_duplicateEmail (fun s => s) pEx dbEx1 (by decide) (by decide)
     (by decide)).2.1⟩

/-! ### Claim C5: password/confirmPassword mismatch -/

/-- C5: any registration payload whose password and confirmPassword differ
fails with 400 and leaves the store unchanged (no user row is created), under
every fault schedule: the request is refused before any store access. -/
theorem registerUser_passwordMismatch (faults : Nat → Bool)
    (hash : String → String) (p : RegPayload) (db : DB)
    (h : p.password ≠ p.confirmPassword) :
    (registerUser faults hash p db).status = 400 ∧
      (registerUser faults hash p db).db = db ∧
      (registerUser faults hash p db).events = [] := by
  unfold registerUser
  by_cases hr : regRequiredOk p = true
  · rw [hr]
    rw [if_neg (by simp)]
    rw [if_pos (by simp [h])]
    exact ⟨rfl, rfl, rfl⟩
  · rw [Bool.not_eq_true] at hr
    rw [hr]
    rw [if_pos (by simp)]
    exact ⟨rfl, rfl, rfl⟩

/-- C5 witness: the concrete payload pEx with a different confirmPassword. -/
theorem registerUser_passwordMismatch_witness :
    { pEx with confirmPassword := some "Password2" }.password ≠
        { pEx with confirmPassword := some "Password2" }.confirmPassword ∧
      (registerUser noFaults (fun s => s)
        { pEx with confirmPassword := some "Password2" } dbEx).status = 400 ∧
      (registerUser noFaults (fun s => s)
        { pEx with confirmPassword := some "Password2" } dbEx).db = dbEx :=
  ⟨by decide,
   (registerUser_passwordMismatch noFaults (fun s => s)
     { pEx with confirmPassword := some "Password2" } dbEx (by decide)).1,
   (registerUser_passwordMismatch noFaults (fun s => s)
     { pEx with confirmPassword := some "Password2" } dbEx (by decide)).2.1⟩


/-! ### Claim C8: registration with missing default counties -/

/-- A truthy possibly-absent string is present. -/
lemma isSome_of_jsTruthy {x : Option String} (h : jsTruthyStr x = true) :
    x.isSome = true := by
  cases x <;> simp [jsTruthyStr] at h ⊢

/-- A payload passing the required-field check with a present phone binds the
surveyor INSERT without undefined parameters. -/
lemma regInsertBindOk_of (p : RegPayload) (h1 : regRequiredOk p = true)
    (hp : p.phone.isSome = true) : regInsertBindOk p = true := by
  unfold regRequiredOk at h1
  simp only [Bool.and_eq_true] at h1
  obtain ⟨⟨⟨⟨⟨⟨⟨⟨he, hpw⟩, hcp⟩, hf⟩, hl⟩, ha⟩, hc⟩, hs⟩, hz⟩ := h1
  unfold regInsertBindOk
  simp [isSome_of_jsTruthy he, isSome_of_jsTruthy hf, isSome_of_jsTruthy hl,
    isSome_of_jsTruthy ha, isSome_of_jsTruthy hc, isSome_of_jsTruthy hs,
    isSome_of_jsTruthy hz, hp]

/-- Supporting lemma: a well-formed registration with a present phone, whose
email is free, against a store in which none of the default county names
(Boulder, Broomfield, Gilpin) resolve, succeeds with 201; the user row is
committed (exactly one row with that email) and no county association is
inserted. -/
lemma registerUser_missingDefaultCounties (hash : String → String)
    (p : RegPayload) (db : DB) (h1 : regRequiredOk p = true)
    (h2 : p.password = p.confirmPassword) (h3 : p.phone.isSome = true)
    (h4 : db.surveyors.filter (fun s => s.email == p.email) = [])
    (h5 : defaultCountyRows db = [])
    (h6 : db.surveyors_counties.filter
      (fun rc => rc.1 == db.nextSurveyorId) = []) :
    (registerUser noFaults hash p db).status = 201 ∧
      ((registerUser noFaults hash p db).db.surveyors.filter
        fun s => s.email == p.email).length = 1 ∧
      (registerUser noFaults hash p db).db.surveyors_counties =
        db.surveyors_counties ∧
      ((registerUser noFaults hash p db).db.surveyors_counties.filter
        fun rc => rc.1 == db.nextSurveyorId) = [] := by
  unfold registerUser
  rw [h1]
  rw [if_neg (by simp)]
  rw [if_neg (by simp [h2])]
  rw [if_neg (by simp [noFaults])]
  rw [if_neg (by rw [h4]; simp)]
  rw [if_neg (by simp [noFaults, regInsertBindOk_of p h1 h3])]
  rw [if_neg (by simp [noFaults])]
  rw [if_neg ?hins]
  case hins =>
    unfold defaultCountyRows at h5 ⊢
    dsimp only
    rw [h5]
    simp
  refine ⟨rfl, ?_, rfl, h6⟩
  dsimp only
  rw [List.filter_append, h4]
  simp

/-- Supporting lemma: a registration passing the controller's required-field
check but omitting the optional phone reaches the surveyor INSERT with an
undefined bind parameter, which the driver rejects, so the call fails with
500 and no committed change — regardless of the counties table. -/
lemma registerUser_phoneUndefined (hash : String → String) (p : RegPayload)
    (db : DB) (h1 : regRequiredOk p = true)
    (h2 : p.password = p.confirmPassword) (h3 : p.phone = none)
    (h4 : db.surveyors.filter (fun s => s.email == p.email) = []) :
    (registerUser noFaults hash p db).status = 500 ∧
      (registerUser noFaults hash p db).db = db := by
  have hbind : regInsertBindOk p = false := by
    unfold regInsertBindOk
    rw [h3]
    simp
  unfold registerUser
  rw [h1]
  rw [if_neg (by simp)]
  rw [if_neg (by simp [h2])]
  rw [if_neg (by simp [noFaults])]
  rw [if_neg (by rw [h4]; simp)]
  rw [if_pos (by simp [hbind])]
  exact ⟨rfl, rfl⟩

/-- C8 counterexample: the concrete payload pExNoPhone passes the validator
and the controller's own required-field check (phone is optional at every
layer), its email is free, and the store resolves none of the default county
names — yet registration returns 500 with the store unchanged, not 201, so
the claim as stated fails. -/
theorem registerUser_missingDefaults_phoneless_fails :
    regRequiredOk pExNoPhone = true ∧
      pExNoPhone.password = pExNoPhone.confirmPassword ∧
      defaultCountyRows dbEx1 = [] ∧
      (dbEx1.surveyors.filter fun s => s.email == pExNoPhone.email) = [] ∧
      (registerUser noFaults (fun s => s) pExNoPhone dbEx1).status = 500 ∧
      (registerUser noFaults (fun s => s) pExNoPhone dbEx1).db = dbEx1 := by
  decide

/-- C8 amended: for a registration in which none of the fixed default county
names resolve, if the payload provides a phone the registration still
succeeds — 201, user row committed, and zero county associations for the new
user (the missing defaults are only logged); but if the optional phone is
omitted the INSERT binds phone as undefined, the driver rejects it, and the
registration fails with 500 and no committed change, regardless of the
counties table. -/
theorem registerUser_missingDefaults_amended :
    (∀ hash p db, regRequiredOk p = true → p.password = p.confirmPassword →
      p.phone.isSome = true →
      db.surveyors.filter (fun s => s.email == p.email) = [] →
      defaultCountyRows db = [] →
      db.surveyors_counties.filter (fun rc => rc.1 == db.nextSurveyorId) = [] →
      (registerUser noFaults hash p db).status = 201 ∧
        ((registerUser noFaults hash p db).db.surveyors.filter
          fun s => s.email == p.email).length = 1 ∧
        (registerUser noFaults hash p db).db.surveyors_counties =
          db.surveyors_counties ∧
        ((registerUser noFaults hash p db).db.surveyors_counties.filter
          fun rc => rc.1 == db.nextSurveyorId) = []) ∧
    (∀ hash p db, regRequiredOk p = true → p.password = p.confirmPassword →
      p.phone = none →
      db.surveyors.filter (fun s => s.email == p.email) = [] →
      (registerUser noFaults hash p db).status = 500 ∧
        (registerUser noFaults hash p db).db = db) :=
  ⟨registerUser_missingDefaultCounties, registerUser_phoneUndefined⟩

/-- C8 amended witness: against the county-less store dbEx1 with a fresh
email, the phone-bearing payload registers with 201 and zero county rows,
while the phone-less payload fails with 500 and an unchanged store. -/
theorem registerUser_missingDefaults_amended_witness :
    (registerUser noFaults (fun s => s)
        { pEx with email := some "fresh@example.com" } dbEx1).status = 201 ∧
      ((registerUser noFaults (fun s => s)
        { pEx with email := some "fresh@example.com" } dbEx1).db.surveyors_counties.filter
          fun rc => rc.1 == dbEx1.nextSurveyorId) = [] ∧
      (registerUser noFaults (fun s => s) pExNoPhone dbEx1).status = 500 ∧
      (registerUser noFaults (fun s => s) pExNoPhone dbEx1).db = dbEx1 := by
  refine ⟨?_, ?_, ?_, ?_⟩
  · exact (registerUser_missingDefaults_amended.1 (fun s => s)
      { pEx with email := some "fresh@example.com" } dbEx1 (by decide) (by decide)
      (by decide) (by decide) (by decide) (by decide)).1
  · exact (registerUser_missingDefaults_amended.1 (fun s => s)
      { pEx with email := some "fresh@example.com" } dbEx1 (by decide) (by decide)
      (by decide) (by decide) (by decide) (by decide)).2.2.2
  · exact (registerUser_missingDefaults_amended.2 (fun s => s) pExNoPhone dbEx1
      (by decide) (by decide) rfl (by decide)).1
  · exact (registerUser_missingDefaults_amended.2 (fun s => s) pExNoPhone dbEx1
      (by decide) (by decide) rfl (by decide)).2

/-! ### Claim C9: owner-only endpoints fail closed -/

/-- C9: for every owner-only request, if the authenticated id differs from the
path-parameter id — including when the authenticated id is absent — the
response is 403, the store is untouched and the handler never runs, for every
handler (hence regardless of whether the target resource exists). -/
theorem ownerOnly_mismatch_403 (tokenUserId : Option Nat) (paramId : Nat)
    (handler : DB → Nat × DB) (db : DB) (h : tokenUserId ≠ some paramId) :
    runOwnerOnly tokenUserId paramId handler db = (403, db, false) := by
  unfold runOwnerOnly checkResourceOwnership
  rcases tokenUserId with _ | uid
  · simp
  · have hne : (uid == paramId) = false := by
      apply beq_eq_false_iff_ne.mpr
      intro he
      exact h (by rw [he])
    simp [hne]

/-- C9 witness: a valid identity for user 1 requesting user 2, and an absent
identity requesting user 1, both refused with 403 without running a handler
that would have reported the resource as existing. -/
theorem ownerOnly_mismatch_403_witness :
    runOwnerOnly (some 1) 2 (fun db => (200, db)) dbEx = (403, dbEx, false) ∧
      runOwnerOnly none 1 (fun db => (200, db)) dbEx = (403, dbEx, false) :=
  ⟨ownerOnly_mismatch_403 (some 1) 2 (fun db => (200, db)) dbEx (by decide),
   ownerOnly_mismatch_403 none 1 (fun db => (200, db)) dbEx (by decide)⟩

/-! ### Claim C7: DatabaseService.insert / updateById return contract -/

/-- C7: the driver hands a DML result back as a header object, `executeQuery`
already unwraps the driver pair and returns that header, and `insert` and
`updateById` then array-destructure the non-iterable header a second time, so
both always raise a TypeError instead of returning the generated id or the
affected-row count. -/
theorem dbService_insert_updateById_alwaysThrow (table : String)
    (fields : List String) (h : ResultSetHeader) :
    (executeQuery (QueryOutcome.header h)).1 = Except.ok h.toJs ∧
      (DatabaseService.insert table fields (QueryOutcome.header h)).1 =
        Except.error JsError.typeError ∧
      (DatabaseService.updateById table fields (QueryOutcome.header h)).1 =
        Except.error JsError.typeError :=
  ⟨rfl, rfl, rfl⟩

/-! ### Claim C6: paginate metadata -/

/-- Math.ceil of a nonnegative integer quotient is the add-predecessor
division formula. -/
lemma jsMathCeilDiv_eq_add_pred_div (t l : Nat) (hl : 1 ≤ l) :
    jsMathCeilDiv t l = (t + l - 1) / l := by
  unfold jsMathCeilDiv
  rcases Nat.eq_zero_or_pos t with ht | ht
  · subst ht
    rw [Nat.div_eq_of_lt (by omega)]
    simp
  · set n := (t + l - 1) / l with hn
    have key := Nat.div_add_mod (t + l - 1) l
    have hml : (t + l - 1) % l < l := Nat.mod_lt _ (by omega)
    have hn1 : 1 ≤ n := by
      rw [hn]
      exact (Nat.one_le_div_iff (by omega)).mpr (by omega)
    obtain ⟨M, hM⟩ : ∃ M, M = l * n := ⟨l * n, rfl⟩
    rw [← hn, ← hM] at key
    have hlq : (0 : ℚ) < (l : ℚ) := by positivity
    rw [Nat.ceil_eq_iff (by omega)]
    constructor
    · rw [lt_div_iff₀ hlq]
      have hsub : (n - 1) * l = M - l := by
        rw [hM, Nat.sub_mul, one_mul, Nat.mul_comm]
      have hlt : (n - 1) * l < t := by
        rw [hsub]
        omega
      exact_mod_cast hlt
    · rw [div_le_iff₀ hlq]
      have hle : t ≤ n * l := by
        rw [Nat.mul_comm, ← hM]
        omega
      exact_mod_cast hle

/-- C6: for every (already WHERE-filtered, ORDER BY-ordered) row list with
page ≥ 1 and limit ≥ 1, paginate returns totalPages = ceil(total/limit),
hasNext = (page < totalPages), hasPrev = (page > 1), total = the row count,
and the data window starting at offset (page - 1) * limit of size at most
limit. -/
theorem paginate_meta (α : Type) (rows : List α) (page limit : Nat)
    (hp : 1 ≤ page) (hl : 1 ≤ limit) :
    (paginate rows page limit).pagination.totalPages =
        (rows.length + limit - 1) / limit ∧
      (paginate rows page limit).pagination.hasNext =
        decide (page < (rows.length + limit - 1) / limit) ∧
      (paginate rows page limit).pagination.hasPrev = decide (1 < page) ∧
      (paginate rows page limit).pagination.total = rows.length ∧
      (paginate rows page limit).pagination.page = page ∧
      (paginate rows page limit).pagination.limit = limit ∧
      (paginate rows page limit).data =
        (rows.drop ((page - 1) * limit)).take limit := by
  unfold paginate
  dsimp only
  rw [jsMathCeilDiv_eq_add_pred_div _ _ hl]
  exact ⟨rfl, rfl, rfl, rfl, rfl, rfl, rfl⟩

/-- C6 witness: paginate over 25 rows with page 2 and limit 10 returns 10
rows, totalPages 3, hasNext and hasPrev. -/
theorem paginate_meta_witness :
    (paginate (List.range 25) 2 10).data.length = 10 ∧
      (paginate (List.range 25) 2 10).pagination.totalPages = 3 ∧
      (paginate (List.range 25) 2 10).pagination.hasNext = true ∧
      (paginate (List.range 25) 2 10).pagination.hasPrev = true := by
  have h := paginate_meta Nat (List.range 25) 2 10 (by decide) (by decide)
  refine ⟨?_, ?_, ?_, ?_⟩
  · rw [h.2.2.2.2.2.2]
    decide
  · rw [h.1]
    decide
  · rw [h.2.1]
    decide
  · rw [h.2.2.1]
    decide


/-! ### Claim C10: which columns the profile-info UPDATE writes -/

/-- C10 counterexample: a request omitting firstName (the other eight fields
present).  The driver rejects the undefined bind parameter, the call fails
with 500, the store is unchanged, and the stored first_name of user 1 retains
its previous value — contradicting the claim that an omitted field does not
retain its previous stored value. -/
theorem updateUserInfo_omittedField_retained :
    bodyEx.firstName = none ∧
      (updateUserInfo noFaults 1 bodyEx dbEx).status = 500 ∧
      (updateUserInfo noFaults 1 bodyEx dbEx).db = dbEx ∧
      ((updateUserInfo noFaults 1 bodyEx dbEx).db.surveyors.map
        fun s => s.first_name) = [some "Old"] := by
  decide

/-- C10 amended: updateUserInfo issues a single UPDATE that sets all nine
profile columns unconditionally.  When the seven raw-bound fields are all
present (and the user exists), the call succeeds and every matching row
carries exactly the submitted nine values, an omitted companyName or phone
being coerced to SQL NULL and overwriting the stored value; but when any of
the seven raw-bound fields is omitted, the driver rejects the undefined bind
parameter and the whole call fails with 500, every column retaining its
previous value. -/
theorem updateUserInfo_allNineColumns :
    (∀ userId b db, infoBindOk b = true →
      (db.surveyors.filter fun s => s.id == userId).length ≠ 0 →
      (updateUserInfo noFaults userId b db).status = 200 ∧
        ∀ s ∈ (updateUserInfo noFaults userId b db).db.surveyors,
          s.id = userId →
          s.first_name = b.firstName ∧ s.last_name = b.lastName ∧
          s.company_name = jsOrNull b.companyName ∧ s.email = b.email ∧
          s.phone = jsOrNull b.phone ∧ s.address = b.address ∧
          s.town = b.city ∧ s.state = b.state ∧ s.zip_code = b.zipCode) ∧
    (∀ userId b db, infoBindOk b = false →
      (updateUserInfo noFaults userId b db).status = 500 ∧
        (updateUserInfo noFaults userId b db).db = db) := by
  constructor
  · intro userId b db hbind hex
    unfold updateUserInfo
    rw [if_neg (by simp [noFaults, hbind])]
    rw [if_neg (by simp [beq_eq_false_iff_ne.mpr hex])]
    refine ⟨rfl, ?_⟩
    intro s hs hid
    dsimp only at hs
    obtain ⟨t, ht, rfl⟩ := List.mem_map.mp hs
    by_cases hti : (t.id == userId) = true
    · rw [if_pos hti]
      unfold applyInfoUpdate
      exact ⟨rfl, rfl, rfl, rfl, rfl, rfl, rfl, rfl, rfl⟩
    · rw [if_neg hti] at hid ⊢
      exact absurd (by simp [hid]) hti
  · intro userId b db hbind
    unfold updateUserInfo
    rw [if_pos (by simp [hbind])]
    exact ⟨rfl, rfl⟩

/-- C10 amended witness: a body omitting companyName and phone succeeds and
overwrites them with NULL, and a body omitting firstName fails with 500. -/
theorem updateUserInfo_allNineColumns_witness :
    infoBindOk bodyEx2 = true ∧
      (dbEx.surveyors.filter fun s => s.id == 1).length ≠ 0 ∧
      (updateUserInfo noFaults 1 bodyEx2 dbEx).status = 200 ∧
      ((updateUserInfo noFaults 1 bodyEx2 dbEx).db.surveyors.map
        fun s => s.company_name) = [none] ∧
      infoBindOk bodyEx = false ∧
      (updateUserInfo noFaults 1 bodyEx dbEx).status = 500 := by
  refine ⟨by decide, by decide, ?_, by decide, by decide, ?_⟩
  · exact (updateUserInfo_allNineColumns.1 1 bodyEx2 dbEx (by decide)
      (by decide)).1
  · exact (updateUserInfo_allNineColumns.2 1 bodyEx dbEx (by decide)).1


end CLS
